import Mathlib

/-!
Shallow embedding of the model-artifact optimization pipeline in
`scripts/training/export_onnx.py` (NailXR-UI), together with theorems
settling the frozen claims about it.

Conventions used throughout:
* Backend behaviour that the Python code observes only through
  success/exception (onnxruntime sessions, onnxoptimizer, the
  quantization entry points) is modelled by explicit outcome parameters,
  one per `try` block of the source.
* Tensors are finite lists of (channel index, rational value) pairs;
  machine floats are modelled as exact rationals.
* A Python function that can raise is embedded as `Except`-valued;
  a function that converts failure to a boolean result returns that
  boolean (or an outcome enum) directly, as the source does.
-/

/-! ## Graph Optimizer (`optimize_graph`, export_onnx.py lines 210-286) -/

/-- Outcome of the primary (onnxruntime session) optimization tier.
The source wraps the whole tier, including the `import onnxruntime`,
in `try ... except Exception`, so a missing backend and a raising
backend are the same observable outcome. -/
inductive Tier1Outcome
  | success
  | failure
deriving DecidableEq

/-- Outcome of the secondary (onnxoptimizer) tier.  The source guards
this tier with `except ImportError` only, so a missing module and a
non-import exception are distinct observable outcomes. -/
inductive Tier2Outcome
  | success
  | importError
  | exception
deriving DecidableEq

/-- What ends up at the optimizer's output path. `copyOfInput` is the
byte-for-byte `shutil.copy2` fallback. -/
inductive OptArtifact
  | ortOptimized
  | onnxoptOptimized
  | copyOfInput
deriving DecidableEq

/-- The only exception `optimize_graph` itself can let escape: a
non-ImportError raised inside the onnxoptimizer tier. -/
inductive OptError
  | onnxoptimizerRaised
deriving DecidableEq

/-- Embedding of `optimize_graph(input_path, output_path)`.
Tier 1: `try: import onnxruntime; InferenceSession(...) ... return True
except Exception: pass through`.  Tier 2: `try: import onnx, onnxoptimizer;
optimize; save; return True except ImportError: shutil.copy2; return False`.
A non-ImportError exception in tier 2 is not caught and propagates. -/
def optimize_graph (t1 : Tier1Outcome) (t2 : Tier2Outcome) :
    Except OptError (Bool × OptArtifact) :=
  match t1 with
  | Tier1Outcome.success => Except.ok (true, OptArtifact.ortOptimized)
  | Tier1Outcome.failure =>
    match t2 with
    | Tier2Outcome.success => Except.ok (true, OptArtifact.onnxoptOptimized)
    | Tier2Outcome.importError => Except.ok (false, OptArtifact.copyOfInput)
    | Tier2Outcome.exception => Except.error OptError.onnxoptimizerRaised

/-! ## Static Quantizer (`static_quantize_model`, lines 360-437) and its
calibration-reader interaction -/

/-- Quantization formats attempted by the static quantizer, in source
order: `QuantFormat.QDQ` first, `QuantFormat.QOperator` on retry. -/
inductive QuantFormat
  | QDQ
  | QOperator
deriving DecidableEq

/-- How a `static_quantize_model` call ends: `skippedUnavailable` is the
`return False` taken when `onnxruntime.quantization` cannot be imported;
`succeeded` is the normal `return True`; `raised` means an exception
escaped to the caller. -/
inductive QuantOutcome
  | skippedUnavailable
  | succeeded
  | raised
deriving DecidableEq

/-- Observable side effects of one `static_quantize_model` call:
how many times `calibration_reader.rewind()` was invoked, whether the
transient `*_preprocessed.onnx` file still exists when the call ends,
and which quantization formats were attempted, in order. -/
structure QuantState where
  rewindCount : Nat
  preprocessedFileExists : Bool
  attempts : List QuantFormat
deriving DecidableEq

/-- Embedding of `static_quantize_model`.  Parameters model the four
`try` blocks of the source: `backendAvailable` — the
`onnxruntime.quantization` import succeeds; `preprocessOk` —
`quant_pre_process` succeeds (on success the transient preprocessed file
exists and is used as quantization input, on exception the unmodified
input is used); `qdqOk` / `qopOk` — the two `quantize_static` calls do
not raise.  The cleanup (`os.remove` of the preprocessed file) sits
after the second `quantize_static` with no `finally`, so it only runs
when neither attempt's exception escapes. -/
def static_quantize_model (backendAvailable preprocessOk qdqOk qopOk : Bool) :
    QuantOutcome × QuantState :=
  if backendAvailable = false then
    (QuantOutcome.skippedUnavailable, { rewindCount := 0, preprocessedFileExists := false, attempts := [] })
  else
    let s0 : QuantState :=
      { rewindCount := 0, preprocessedFileExists := preprocessOk, attempts := [] }
    let s1 : QuantState := { s0 with attempts := s0.attempts ++ [QuantFormat.QDQ] }
    if qdqOk then
      (QuantOutcome.succeeded, { s1 with preprocessedFileExists := false })
    else
      let s2 : QuantState :=
        { s1 with rewindCount := s1.rewindCount + 1,
                  attempts := s1.attempts ++ [QuantFormat.QOperator] }
      if qopOk then
        (QuantOutcome.succeeded, { s2 with preprocessedFileExists := false })
      else
        (QuantOutcome.raised, s2)

/-! ## Calibration Sample Source (`CalibrationDataReader`, lines 289-357) -/

/-- A tensor, flattened to a list of (channel index, value) pairs;
values are exact rationals standing for the float32 entries. -/
abbrev Tensor := List (Nat × ℚ)

/-- Per-channel ImageNet mean used by both loading paths
(`np.array([0.485, 0.456, 0.406])`). -/
def imagenetMean (c : Nat) : ℚ :=
  if c = 0 then 485/1000 else if c = 1 then 456/1000 else 406/1000

/-- Per-channel ImageNet std used by both loading paths
(`np.array([0.229, 0.224, 0.225])`). -/
def imagenetStd (c : Nat) : ℚ :=
  if c = 0 then 229/1000 else if c = 1 then 224/1000 else 225/1000

/-- `(arr - mean) / std`, applied elementwise with the per-channel
mean/std broadcast, exactly as both `_load_from_directory` and
`_generate_synthetic` do. -/
def normalizeTensor (t : Tensor) : Tensor :=
  t.map fun p => (p.1, (p.2 - imagenetMean p.1) / imagenetStd p.1)

/-- One calibration feed dict `{'input': arr}`. -/
structure CalibrationSample where
  input : Tensor
deriving DecidableEq

/-- A candidate calibration directory: whether `os.path.isdir` holds,
and the sorted image-extension files it contains, each decoding either
to a tensor (`some`) or raising inside `PIL`/`numpy` (`none`, silently
skipped by the source). -/
structure CalibrationDir where
  isDir : Bool
  files : List (Option Tensor)

/-- Embedding of `CalibrationDataReader` instance state: the fields set
in `__init__` plus the cursor `current` used by `get_next`/`rewind`. -/
structure CalibrationDataReader where
  image_size : Nat
  num_samples : Nat
  current : Nat
  data : List CalibrationSample
deriving DecidableEq

/-- `_load_from_directory`: the sorted candidate list is truncated to
`num_samples` first (`[:self.num_samples]`), then each file is decoded,
undecodable files being skipped silently, and each decoded tensor is
normalized and stored. -/
def CalibrationDataReader.loadFromDirectory (files : List (Option Tensor))
    (num_samples : Nat) : List CalibrationSample :=
  ((files.take num_samples).filterMap id).map fun t => ⟨normalizeTensor t⟩

/-- `_generate_synthetic`: exactly `num_samples` draws from the random
stream `rng` (the i-th call to `np.random.rand`), each normalized. -/
def CalibrationDataReader.generateSynthetic (rng : Nat → Tensor)
    (num_samples : Nat) : List CalibrationSample :=
  (List.range num_samples).map fun i => ⟨normalizeTensor (rng i)⟩

/-- `CalibrationDataReader.__init__`: loads from the directory when one
is supplied and `os.path.isdir` holds, otherwise generates synthetic
data; the cursor starts at 0 and `data` is fixed from then on. -/
def CalibrationDataReader.init (image_size : Nat)
    (calibration_dir : Option CalibrationDir) (num_samples : Nat)
    (rng : Nat → Tensor) : CalibrationDataReader :=
  { image_size := image_size
    num_samples := num_samples
    current := 0
    data :=
      match calibration_dir with
      | some d =>
        if d.isDir then CalibrationDataReader.loadFromDirectory d.files num_samples
        else CalibrationDataReader.generateSynthetic rng num_samples
      | none => CalibrationDataReader.generateSynthetic rng num_samples }

/-- `get_next`: returns `None` once the cursor has passed the end,
otherwise the sample at the cursor, advancing the cursor. -/
def CalibrationDataReader.get_next (r : CalibrationDataReader) :
    Option CalibrationSample × CalibrationDataReader :=
  if r.data.length ≤ r.current then (none, r)
  else (r.data[r.current]?, { r with current := r.current + 1 })

/-- `rewind`: resets the cursor to 0; `data` is untouched. -/
def CalibrationDataReader.rewind (r : CalibrationDataReader) :
    CalibrationDataReader :=
  { r with current := 0 }

/-- Repeatedly calling `get_next` (at most `fuel` times) and collecting
the returned samples until the end-of-sequence signal. -/
def CalibrationDataReader.iterate :
    Nat → CalibrationDataReader → List CalibrationSample × CalibrationDataReader
  | 0, r => ([], r)
  | fuel + 1, r =>
    match r.get_next with
    | (none, r2) => ([], r2)
    | (some s, r2) =>
      let res := CalibrationDataReader.iterate fuel r2
      (s :: res.1, res.2)

/-! ## Verifier (`verify_onnx`, lines 123-181) -/

/-- The output tensor produced by one inference run: its numpy shape
and its values (flattened), as exact rationals. -/
structure OrtOutput where
  shape : List Nat
  vals : List ℚ
deriving DecidableEq

/-- A serialized graph as the Verifier observes it: whether
`onnx.load` + `onnx.checker.check_model` succeed, and the result of
running one input through an inference session (`none` when session
construction or `session.run` raises). -/
structure ONNXArtifact where
  structOk : Bool
  infer : Option OrtOutput
deriving DecidableEq

/-- The distinct exceptions `verify_onnx` can let escape: checker
failure, a raising inference session, numpy `min`/`max` on an empty
output (the range print precedes the assertions), and the two
`assert` statements. -/
inductive VerifyError
  | loadOrCheckFailed
  | inferenceRaised
  | emptyOutput
  | rangeAssertFailed
  | shapeAssertFailed
deriving DecidableEq

/-- Embedding of `verify_onnx(onnx_path, image_size)`.  When the
`import onnx / import onnxruntime` fails (`ortAvailable = false`) the
function prints a warning and returns `True` having checked nothing.
Otherwise it checks structure, runs one input, asserts
`output.min() >= 0 and output.max() <= 1` and then
`output.shape == (1, 1, image_size, image_size)`, and returns `True`;
any violation escapes as an exception. -/
def verify_onnx (ortAvailable : Bool) (m : ONNXArtifact) (image_size : Nat) :
    Except VerifyError Bool :=
  if ortAvailable = false then Except.ok true
  else if m.structOk = false then Except.error VerifyError.loadOrCheckFailed
  else
    match m.infer with
    | none => Except.error VerifyError.inferenceRaised
    | some out =>
      if out.vals = [] then Except.error VerifyError.emptyOutput
      else if (out.vals.all fun v => decide (0 ≤ v) && decide (v ≤ 1)) = false then
        Except.error VerifyError.rangeAssertFailed
      else if decide (out.shape = [1, 1, image_size, image_size]) = false then
        Except.error VerifyError.shapeAssertFailed
      else Except.ok true

/-! ## Pipeline slice of `main` (lines 639-675): variant tracking,
`current_best`, and the quantization source policies -/

/-- The CLI flags of `main` that drive the optimization stages. -/
structure PipelineArgs where
  optimize : Bool
  quantize : Bool
  static_quantize : Bool
deriving DecidableEq

/-- Boolean results of the three optional stage calls, as returned into
`main`'s `if` conditions (`optimize_graph`, `quantize_model`,
`static_quantize_model`). -/
structure StageOutcomes where
  optimizeOk : Bool
  quantizeOk : Bool
  staticOk : Bool
deriving DecidableEq

/-- The state `main` builds across steps 1-4: the `model_variants`
dict (as an insertion-ordered association list), the `current_best`
path, and — for the source-policy claims — the input paths handed to
`quantize_model` and `static_quantize_model` (`none` when the stage was
not requested). -/
structure MainState where
  variants : List (String × String)
  current_best : String
  dynamicSource : Option String
  staticSource : Option String
deriving DecidableEq

/-- Embedding of steps 1-4 of `main`: after export,
`model_variants = {'float32': args.output}` and `current_best =
args.output`; each requested stage that returns `True` registers its
variant and overwrites `current_best` with its own path; dynamic
quantization always reads `args.output`; static quantization reads
`model_variants.get('optimized', args.output)`. -/
def mainPipeline (args : PipelineArgs) (oc : StageOutcomes)
    (output optimizedPath quantizedPath staticPath : String) : MainState :=
  let variants : List (String × String) := [("float32", output)]
  let current_best := output
  let step2 : List (String × String) × String :=
    if args.optimize then
      if oc.optimizeOk then (variants ++ [("optimized", optimizedPath)], optimizedPath)
      else (variants, current_best)
    else (variants, current_best)
  let variants := step2.1
  let current_best := step2.2
  let dynamicSource : Option String :=
    if args.quantize then some output else none
  let step3 : List (String × String) × String :=
    if args.quantize then
      if oc.quantizeOk then (variants ++ [("dynamic-int8", quantizedPath)], quantizedPath)
      else (variants, current_best)
    else (variants, current_best)
  let variants := step3.1
  let current_best := step3.2
  let staticSource : Option String :=
    if args.static_quantize then some ((variants.lookup "optimized").getD output)
    else none
  let step4 : List (String × String) × String :=
    if args.static_quantize then
      if oc.staticOk then (variants ++ [("static-int8", staticPath)], staticPath)
      else (variants, current_best)
    else (variants, current_best)
  { variants := step4.1
    current_best := step4.2
    dynamicSource := dynamicSource
    staticSource := staticSource }

/-! ## Benchmark/Comparator (`compare_models`, lines 440-543) -/

/-- One entry of the `model_paths` mapping as the comparison loop
observes it: the variant name, whether `os.path.exists` holds for its
path, the inference result (`none` when session construction, warm-up
or the benchmark loop raises), the measured mean latency in ms for the
successful case, and the file size in MB. -/
structure VariantFile where
  name : String
  onDisk : Bool
  run : Option OrtOutput
  measuredMs : ℚ
  sizeMB : ℚ
deriving DecidableEq

/-- The similarity/MSE cell of a report row: the designated reference
row carries the marker string `"reference"`, a successful non-reference
row carries computed numbers, a failed row carries the error message in
the similarity cell and an em-dash in the MSE cell. -/
inductive SimField
  | reference
  | computed
  | errorMsg
  | dash
deriving DecidableEq

/-- One row of the comparison report, with the fields of the source's
result dict in order. -/
structure ResultRow where
  name : String
  size_mb : ℚ
  avg_ms : ℚ
  fps : ℚ
  similarity : SimField
  mse : SimField
deriving DecidableEq

/-- The comparison loop of `compare_models`, threading the
`reference_output` accumulator: missing files are skipped; a raising
variant is recorded with sentinel `-1` latency/fps and an error-message
similarity cell and the loop continues; the first successful variant
becomes the reference and is marked `"reference"`; later successful
variants get computed similarity/MSE against the reference. -/
def compareLoop : Option OrtOutput → List VariantFile → List ResultRow
  | _, [] => []
  | r, v :: rest =>
    if v.onDisk = false then compareLoop r rest
    else
      match v.run, r with
      | none, _ =>
        { name := v.name, size_mb := v.sizeMB, avg_ms := -1, fps := -1,
          similarity := SimField.errorMsg, mse := SimField.dash } :: compareLoop r rest
      | some out, none =>
        { name := v.name, size_mb := v.sizeMB, avg_ms := v.measuredMs,
          fps := 1000 / v.measuredMs, similarity := SimField.reference,
          mse := SimField.reference } :: compareLoop (some out) rest
      | some _, some o =>
        { name := v.name, size_mb := v.sizeMB, avg_ms := v.measuredMs,
          fps := 1000 / v.measuredMs, similarity := SimField.computed,
          mse := SimField.computed } :: compareLoop (some o) rest

/-- The `reference_output` accumulator value after processing a prefix
of the variant list. -/
def refState : Option OrtOutput → List VariantFile → Option OrtOutput
  | r, [] => r
  | r, v :: rest =>
    if v.onDisk = false then refState r rest
    else
      match v.run, r with
      | none, _ => refState r rest
      | some out, none => refState (some out) rest
      | some _, some o => refState (some o) rest

/-- Embedding of `compare_models(model_paths, ...)`: the report rows,
in processing order. -/
def compare_models (vs : List VariantFile) : List ResultRow :=
  compareLoop none vs

/-! ## Concrete inputs used by witnesses and counterexamples -/

/-- A trivial random stream: every draw is the empty tensor. -/
def rngZero : Nat → Tensor := fun _ => []

/-- A reference variant whose inference succeeds. -/
def refOut : OrtOutput :=
  { shape := [1, 1, 2, 2], vals := [0, 0, 0, 0] }

/-- A variant file that exists on disk and runs successfully. -/
def vfRef : VariantFile :=
  { name := "float32", onDisk := true, run := some refOut,
    measuredMs := 5, sizeMB := 10 }

/-- A variant file that exists on disk but raises on inference. -/
def vfErr : VariantFile :=
  { name := "static-int8", onDisk := true, run := none,
    measuredMs := 0, sizeMB := 3 }

theorem iterate_drop (fuel : Nat) :
    ∀ r : CalibrationDataReader, r.data.length - r.current ≤ fuel →
      (CalibrationDataReader.iterate fuel r).1 = r.data.drop r.current ∧
      (CalibrationDataReader.iterate fuel r).2.data = r.data := by
  induction fuel with
  | zero =>
    intro r h
    have hc : r.data.length ≤ r.current := by omega
    exact ⟨(List.drop_eq_nil_of_le hc).symm, rfl⟩
  | succ n ih =>
    intro r h
    by_cases hc : r.data.length ≤ r.current
    · have hnext : r.get_next = (none, r) := by
        simp [CalibrationDataReader.get_next, hc]
      have hit : CalibrationDataReader.iterate (n + 1) r = ([], r) := by
        simp only [CalibrationDataReader.iterate, hnext]
      rw [hit]
      exact ⟨(List.drop_eq_nil_of_le hc).symm, rfl⟩
    · have hlt : r.current < r.data.length := by omega
      have hs : r.data[r.current]? = some (r.data[r.current]) :=
        List.getElem?_eq_getElem hlt
      have hnext : r.get_next =
          (some (r.data[r.current]), { r with current := r.current + 1 }) := by
        simp [CalibrationDataReader.get_next, hc, hs]
      have hit : CalibrationDataReader.iterate (n + 1) r =
          ((r.data[r.current]) ::
             (CalibrationDataReader.iterate n { r with current := r.current + 1 }).1,
           (CalibrationDataReader.iterate n { r with current := r.current + 1 }).2) := by
        simp only [CalibrationDataReader.iterate, hnext]
      have hrec := ih { r with current := r.current + 1 }
        (by show r.data.length - (r.current + 1) ≤ n; omega)
      rw [hit]
      refine ⟨?_, hrec.2⟩
      rw [hrec.1]
      exact (List.drop_eq_getElem_cons hlt).symm

/-! ## Theorems for claims C1, C2, C3 -/

/-- Claim C1 (counterexample): the claim that the Graph Optimizer treats
each tier's failure as non-fatal and never raises an error into the
pipeline is false: when the primary tier fails and the secondary backend
(onnxoptimizer) raises a non-ImportError exception, `optimize_graph`
propagates that exception to its caller. -/
theorem optimize_graph_raises_cex :
    optimize_graph Tier1Outcome.failure Tier2Outcome.exception
      = Except.error OptError.onnxoptimizerRaised := rfl

/-- Claim C1 (amended): a primary-tier failure of any kind is non-fatal
and falls through to the secondary tier; when the secondary backend is
missing (ImportError) the stage still produces a valid artifact as a
byte-for-byte copy of the unoptimized input and returns without raising;
the stage raises into the pipeline exactly when the primary tier fails
and the secondary backend raises a non-import exception. -/
theorem optimize_graph_fallback_amended (t1 : Tier1Outcome) (t2 : Tier2Outcome) :
    (optimize_graph Tier1Outcome.failure Tier2Outcome.importError
        = Except.ok (false, OptArtifact.copyOfInput)) ∧
    (optimize_graph t1 t2 = Except.error OptError.onnxoptimizerRaised ↔
        t1 = Tier1Outcome.failure ∧ t2 = Tier2Outcome.exception) := by
  cases t1 <;> cases t2 <;> simp [optimize_graph]

/-- Claim C2 (counterexample): the claim that the transient pre-processed
intermediate file is removed on every exit path is false: on the path
where both quantization format attempts raise, the second exception
propagates before the cleanup statement runs and the preprocessed file
is left in existence. -/
theorem static_quantize_cleanup_cex :
    ((static_quantize_model true true false false).2.preprocessedFileExists = true) ∧
    (static_quantize_model true true false false).1 = QuantOutcome.raised := by
  constructor <;> rfl

/-- Claim C2 (amended): the transient pre-processed intermediate file is
removed on every exit path on which the Static Quantizer returns
normally (either format attempt succeeding, or the backend-unavailable
skip); it is left behind exactly on the path where the backend is
available, the preprocessing step created the file, and both format
attempts raise — there the exception propagates before the cleanup. -/
theorem static_quantize_cleanup_amended (b p a q : Bool) :
    (static_quantize_model b p a q).2.preprocessedFileExists = (b && p && !a && !q) := by
  cases b <;> cases p <;> cases a <;> cases q <;> rfl

/-- Claim C3: when the primary format (QDQ) attempt raises, the
calibration reader is rewound exactly once and the QOperator format is
attempted (when QDQ succeeds there is no rewind and no second attempt);
the call raises to its caller iff both format attempts raise; and an
unavailable quantization backend yields the non-fatal skip result
instead of raising. -/
theorem static_quantize_retry_resets_once (p a q : Bool) :
    ((static_quantize_model true p a q).2.rewindCount = if a then 0 else 1) ∧
    ((static_quantize_model true p a q).2.attempts
        = if a then [QuantFormat.QDQ] else [QuantFormat.QDQ, QuantFormat.QOperator]) ∧
    ((static_quantize_model true p a q).1 = QuantOutcome.raised ↔ (a = false ∧ q = false)) ∧
    ((static_quantize_model false p a q).1 = QuantOutcome.skippedUnavailable) := by
  cases p <;> cases a <;> cases q <;> simp [static_quantize_model]

/-! ## Theorems for claims C4, C5 -/

/-- Claim C4: for every Calibration Sample Source, iterating after a
`rewind()` yields exactly the stored sample sequence, and doing so again
after a second `rewind()` yields the identical sequence; the stored
data is fixed at construction and untouched by rewinding, so the source
is never re-randomized on reset. -/
theorem calibration_reset_replay (r : CalibrationDataReader) (fuel : Nat)
    (h : r.data.length ≤ fuel) :
    (CalibrationDataReader.iterate fuel r.rewind).1 = r.data ∧
    (CalibrationDataReader.iterate fuel
        ((CalibrationDataReader.iterate fuel r.rewind).2.rewind)).1 = r.data := by
  have h1 := iterate_drop fuel r.rewind
    (show r.data.length - 0 ≤ fuel by omega)
  have hfst : (CalibrationDataReader.iterate fuel r.rewind).1 = r.data := by
    rw [h1.1]
    show r.data.drop 0 = r.data
    exact List.drop_zero r.data
  have hsnd : (CalibrationDataReader.iterate fuel r.rewind).2.data = r.data := h1.2
  refine ⟨hfst, ?_⟩
  have h2 := iterate_drop fuel ((CalibrationDataReader.iterate fuel r.rewind).2.rewind)
    (show (CalibrationDataReader.iterate fuel r.rewind).2.data.length - 0 ≤ fuel by
      rw [hsnd]; omega)
  rw [h2.1]
  show (CalibrationDataReader.iterate fuel r.rewind).2.data.drop 0 = r.data
  rw [List.drop_zero, hsnd]

/-- Witness for C4 at a concrete synthetic source of two samples. -/
theorem calibration_reset_replay_witness :
    ((CalibrationDataReader.init 256 none 2 rngZero).data.length ≤ 2) ∧
    ((CalibrationDataReader.iterate 2
        (CalibrationDataReader.init 256 none 2 rngZero).rewind).1
      = (CalibrationDataReader.init 256 none 2 rngZero).data ∧
     (CalibrationDataReader.iterate 2
        ((CalibrationDataReader.iterate 2
            (CalibrationDataReader.init 256 none 2 rngZero).rewind).2.rewind)).1
      = (CalibrationDataReader.init 256 none 2 rngZero).data) :=
  ⟨by decide, calibration_reset_replay (CalibrationDataReader.init 256 none 2 rngZero) 2 (by decide)⟩

/-- Claim C5 (counterexample): the claim that a source built with target
count N over a directory with no decodable image produces exactly N
synthetic samples is false: with N = 3 and an existing directory whose
single candidate file is undecodable, the reader holds 0 samples. -/
theorem calibration_no_decodable_cex :
    ((CalibrationDataReader.init 256 (some ⟨true, [none]⟩) 3 rngZero).data.length = 0) ∧
    ¬ ((CalibrationDataReader.init 256 (some ⟨true, [none]⟩) 3 rngZero).data.length = 3) := by
  constructor <;> decide

/-- Claim C5 (amended): the source produces exactly N synthetic samples
when no directory is supplied or the supplied path is not an existing
directory; when an existing directory is supplied, it holds exactly the
decodable files among the first N image-extension candidates (possibly
zero), with no synthetic fallback. -/
theorem calibration_sample_count_amended (S N : Nat)
    (d : Option CalibrationDir) (rng : Nat → Tensor) :
    (CalibrationDataReader.init S d N rng).data.length =
      match d with
      | none => N
      | some dir =>
        if dir.isDir then ((dir.files.take N).filterMap id).length else N := by
  cases d with
  | none =>
    simp [CalibrationDataReader.init, CalibrationDataReader.generateSynthetic]
  | some dir =>
    by_cases hd : dir.isDir <;>
      simp [CalibrationDataReader.init, CalibrationDataReader.loadFromDirectory,
        CalibrationDataReader.generateSynthetic, hd]

/-! ## Theorems for claims C6, C10 -/

/-- Claim C6: with the onnx backends importable, the Verifier accepts a
graph at resolution S exactly when it passes the structural check and
one inference run yields a (non-empty) output of exactly shape
[1,1,S,S] with every value in [0,1] inclusive; it never returns a
non-error `False`, so every violation escapes as an exception. -/
theorem verify_onnx_accepts_iff (m : ONNXArtifact) (S : Nat) :
    (verify_onnx true m S = Except.ok true ↔
      m.structOk = true ∧ ∃ out, m.infer = some out ∧ out.vals ≠ [] ∧
        out.shape = [1, 1, S, S] ∧ ∀ v ∈ out.vals, 0 ≤ v ∧ v ≤ 1) ∧
    verify_onnx true m S ≠ Except.ok false := by
  unfold verify_onnx
  cases hs : m.structOk with
  | false => simp
  | true =>
    cases hi : m.infer with
    | none => simp
    | some out =>
      by_cases he : out.vals = []
      · simp [he]
      · by_cases hall : ∀ v ∈ out.vals, 0 ≤ v ∧ v ≤ 1
        · have hb : (out.vals.all fun v => decide (0 ≤ v) && decide (v ≤ 1)) = true := by
            simp only [List.all_eq_true, Bool.and_eq_true, decide_eq_true_eq]
            exact hall
          by_cases hsh : out.shape = [1, 1, S, S]
          · simp [he, hb, hsh]
            exact hall
          · simp [he, hb, hsh, hall]
        · have hb : (out.vals.all fun v => decide (0 ≤ v) && decide (v ≤ 1)) = false := by
            rw [Bool.eq_false_iff]
            simp only [ne_eq, List.all_eq_true, Bool.and_eq_true, decide_eq_true_eq]
            exact hall
          simp [he, hb, hall]

/-- Claim C10: when the onnx/onnxruntime import fails, `verify_onnx`
returns success for every artifact — including one failing the
structural check, or with a wrong output shape or out-of-range values —
performing no check at all. -/
theorem verify_onnx_unavailable_accepts_all (m : ONNXArtifact) (S : Nat) :
    verify_onnx false m S = Except.ok true := rfl

/-! ## Theorems for claims C7, C9 -/

/-- Claim C7: after the export stage, `current_best` is always one of
the paths present in `model_variants` (it is initialized to the export
output, hence never null), and each later stage that returns success
overwrites `current_best` with its own variant path, regardless of any
benchmark measurement (which `main` never consults). -/
theorem main_current_best_invariant (args : PipelineArgs) (oc : StageOutcomes)
    (output optimizedPath quantizedPath staticPath : String) :
    ((mainPipeline args oc output optimizedPath quantizedPath staticPath).current_best
        ∈ (mainPipeline args oc output optimizedPath quantizedPath staticPath).variants.map
            Prod.snd) ∧
    ((mainPipeline args oc output optimizedPath quantizedPath staticPath).current_best =
      if args.static_quantize && oc.staticOk then staticPath
      else if args.quantize && oc.quantizeOk then quantizedPath
      else if args.optimize && oc.optimizeOk then optimizedPath
      else output) := by
  obtain ⟨a1, a2, a3⟩ := args
  obtain ⟨b1, b2, b3⟩ := oc
  cases a1 <;> cases a2 <;> cases a3 <;> cases b1 <;> cases b2 <;> cases b3 <;>
    simp [mainPipeline]

/-- Claim C9: dynamic quantization is always invoked on the raw export
path (never on the optimizer's output), and static quantization is
invoked on the optimizer's output exactly when the optimized variant was
produced, falling back to the raw export otherwise. -/
theorem main_quantization_sources (args : PipelineArgs) (oc : StageOutcomes)
    (output optimizedPath quantizedPath staticPath : String)
    (hdist : optimizedPath ≠ output) :
    ((mainPipeline args oc output optimizedPath quantizedPath staticPath).dynamicSource
        = if args.quantize then some output else none) ∧
    ((mainPipeline args oc output optimizedPath quantizedPath staticPath).dynamicSource
        ≠ some optimizedPath) ∧
    ((mainPipeline args oc output optimizedPath quantizedPath staticPath).staticSource
        = if args.static_quantize then
            some (if args.optimize && oc.optimizeOk then optimizedPath else output)
          else none) := by
  obtain ⟨a1, a2, a3⟩ := args
  obtain ⟨b1, b2, b3⟩ := oc
  cases a1 <;> cases a2 <;> cases a3 <;> cases b1 <;> cases b2 <;> cases b3 <;>
    simp [mainPipeline, List.lookup, hdist, Ne.symm hdist]

/-- Witness for C9 on a full pipeline run with distinct concrete paths. -/
theorem main_quantization_sources_witness :
    ("a_optimized.onnx" ≠ "a.onnx") ∧
    ((mainPipeline ⟨true, true, true⟩ ⟨true, true, true⟩
        "a.onnx" "a_optimized.onnx" "a_quantized.onnx" "a_static.onnx").dynamicSource
      = some "a.onnx" ∧
     (mainPipeline ⟨true, true, true⟩ ⟨true, true, true⟩
        "a.onnx" "a_optimized.onnx" "a_quantized.onnx" "a_static.onnx").dynamicSource
      ≠ some "a_optimized.onnx" ∧
     (mainPipeline ⟨true, true, true⟩ ⟨true, true, true⟩
        "a.onnx" "a_optimized.onnx" "a_quantized.onnx" "a_static.onnx").staticSource
      = some "a_optimized.onnx") :=
  ⟨by decide, main_quantization_sources ⟨true, true, true⟩ ⟨true, true, true⟩
      "a.onnx" "a_optimized.onnx" "a_quantized.onnx" "a_static.onnx" (by decide)⟩

/-! ## Theorems for claim C8 -/

theorem compareLoop_cons_eq (r : Option OrtOutput) (v : VariantFile)
    (rest : List VariantFile) :
    compareLoop r (v :: rest) =
      if v.onDisk = false then compareLoop r rest
      else
        match v.run, r with
        | none, _ =>
          { name := v.name, size_mb := v.sizeMB, avg_ms := -1, fps := -1,
            similarity := SimField.errorMsg, mse := SimField.dash } :: compareLoop r rest
        | some out, none =>
          { name := v.name, size_mb := v.sizeMB, avg_ms := v.measuredMs,
            fps := 1000 / v.measuredMs, similarity := SimField.reference,
            mse := SimField.reference } :: compareLoop (some out) rest
        | some _, some o =>
          { name := v.name, size_mb := v.sizeMB, avg_ms := v.measuredMs,
            fps := 1000 / v.measuredMs, similarity := SimField.computed,
            mse := SimField.computed } :: compareLoop (some o) rest := rfl

theorem refState_cons_eq (r : Option OrtOutput) (v : VariantFile)
    (rest : List VariantFile) :
    refState r (v :: rest) =
      if v.onDisk = false then refState r rest
      else
        match v.run, r with
        | none, _ => refState r rest
        | some out, none => refState (some out) rest
        | some _, some o => refState (some o) rest := rfl

theorem refState_some (o : OrtOutput) (xs : List VariantFile) :
    refState (some o) xs = some o := by
  induction xs with
  | nil => rfl
  | cons x xs ih =>
    rw [refState_cons_eq]
    by_cases hd : x.onDisk = false
    · simp [hd, ih]
    · have hd1 : x.onDisk = true := by revert hd; cases x.onDisk <;> simp
      cases hr : x.run <;> simp [hd1, hr, ih]

theorem compareLoop_append (r : Option OrtOutput) (xs ys : List VariantFile) :
    compareLoop r (xs ++ ys) = compareLoop r xs ++ compareLoop (refState r xs) ys := by
  induction xs generalizing r with
  | nil => rfl
  | cons x xs ih =>
    simp only [List.cons_append]
    rw [compareLoop_cons_eq r x (xs ++ ys), compareLoop_cons_eq r x xs,
      refState_cons_eq r x xs]
    by_cases hd : x.onDisk = false
    · simp [hd, ih]
    · have hd1 : x.onDisk = true := by revert hd; cases x.onDisk <;> simp
      cases hr : x.run with
      | none => simp [hd1, hr, ih]
      | some out => cases r <;> simp [hd1, hr, ih]

/-- Claim C8: in a comparison run whose first variant runs successfully,
that variant's row is marked `"reference"` in the similarity field (no
similarity is computed for it), a later variant whose inference raises
is recorded with sentinel latency `-1` and an error message in place of
the similarity metrics, and the variants after it are still processed
exactly as they would have been (the failure neither aborts the loop nor
disturbs the reference). -/
theorem compare_models_error_row (w v : VariantFile) (mid post : List VariantFile)
    (out : OrtOutput) (hw : w.onDisk = true) (hwrun : w.run = some out)
    (hv : v.onDisk = true) (hvrun : v.run = none) :
    compare_models (w :: mid ++ v :: post) =
      { name := w.name, size_mb := w.sizeMB, avg_ms := w.measuredMs,
        fps := 1000 / w.measuredMs, similarity := SimField.reference,
        mse := SimField.reference } ::
      (compareLoop (some out) mid ++
        { name := v.name, size_mb := v.sizeMB, avg_ms := -1, fps := -1,
          similarity := SimField.errorMsg, mse := SimField.dash } ::
        compareLoop (some out) post) := by
  have hw1 : compare_models (w :: mid ++ v :: post) =
      { name := w.name, size_mb := w.sizeMB, avg_ms := w.measuredMs,
        fps := 1000 / w.measuredMs, similarity := SimField.reference,
        mse := SimField.reference } ::
      compareLoop (some out) (mid ++ v :: post) := by
    unfold compare_models
    rw [show (w :: mid ++ v :: post) = w :: (mid ++ v :: post) from rfl,
      compareLoop_cons_eq]
    simp [hw, hwrun]
  rw [hw1, compareLoop_append, refState_some]
  congr 1
  congr 1
  rw [compareLoop_cons_eq]
  simp [hv, hvrun]

/-- Witness for C8: two variants, the second engineered to raise; the
report has one reference row and one error row. -/
theorem compare_models_error_row_witness :
    vfRef.onDisk = true ∧ vfRef.run = some refOut ∧
    vfErr.onDisk = true ∧ vfErr.run = none ∧
    compare_models (vfRef :: [] ++ vfErr :: []) =
      { name := vfRef.name, size_mb := vfRef.sizeMB, avg_ms := vfRef.measuredMs,
        fps := 1000 / vfRef.measuredMs, similarity := SimField.reference,
        mse := SimField.reference } ::
      (compareLoop (some refOut) [] ++
        { name := vfErr.name, size_mb := vfErr.sizeMB, avg_ms := -1, fps := -1,
          similarity := SimField.errorMsg, mse := SimField.dash } ::
        compareLoop (some refOut) []) :=
  ⟨rfl, rfl, rfl, rfl,
    compare_models_error_row vfRef vfErr [] [] refOut rfl rfl rfl rfl⟩
